import Mathlib

/-!
Verification development for the AIForum repository.

The definitions below are a shallow embedding of the server code:
`server/routes.ts` (HTTP/WebSocket handlers), `server/chromadb.ts`
(vector-store access), the in-memory storage class `MemStorage`
(`storage.ts`), the shared drizzle schema (`shared/schema.ts`),
and `generateForumAIResponse` / `generateClaudeResponse` (`awsBedrock.ts`).

Modelling decisions:
- JavaScript `Map` objects are modelled as insertion-ordered association
  lists; `Map.set` replaces in place when the key exists and appends
  otherwise, `Map.get` finds by key, `Map.delete` removes by key.
- `new Date()` / timestamps are modelled by a strictly increasing `clock`
  counter in the storage state; JavaScript `Array.prototype.sort` is
  stable, and `MemStorage` sorts by timestamps, so a strictly increasing
  clock yields the same sorted output as real wall-clock times.
- The AWS Bedrock call (`generateClaudeResponse`) is an external provider;
  it is a parameter of type `Claude` returning `Except String String`
  (an `error` models the thrown `GenerationError`).
- The ChromaDB collection store is a list of (collection name, entries);
  the similarity ranking performed inside ChromaDB is an external service
  and is a parameter `sel` (query-dependent selection of stored entries).
  A `fault` flag models the underlying service throwing on `query`.
- The filesystem (for uploaded document files) is a list of existing paths.
-/

namespace AIForum

/-- One entry of the drizzle `posts` table (a forum Question). -/
structure Post where
  id : Nat
  title : String
  content : String
  userId : Nat
  category : String
  tags : Option (List String)
  createdAt : Nat
  updatedAt : Nat
  views : Nat
  isAnswered : Bool
  hasAiAnswer : Bool
deriving DecidableEq

/-- One entry of the `comments` table (an Answer). -/
structure Comment where
  id : Nat
  content : String
  postId : Nat
  userId : Nat
  isAiGenerated : Bool
  createdAt : Nat
  upvotes : Nat
  downvotes : Nat
deriving DecidableEq

/-- One entry of the `votes` table; a vote references either a post or a comment. -/
structure Vote where
  id : Nat
  postId : Option Nat
  commentId : Option Nat
  userId : Nat
  voteType : String
  createdAt : Nat
deriving DecidableEq

/-- One entry of the `documents` table (a Document Record). -/
structure Document where
  id : Nat
  name : String
  description : Option String
  fileType : String
  fileSize : Nat
  category : String
  documentType : String
  filePath : String
  uploadedById : Nat
  status : String
  createdAt : Nat
  embeddingId : Option String
deriving DecidableEq

/-- One entry of the `ai_chats` table (a Chat Session). -/
structure AiChat where
  id : Nat
  userId : Nat
  category : String
  createdAt : Nat
deriving DecidableEq

/-- One entry of the `ai_chat_messages` table. -/
structure AiChatMessage where
  id : Nat
  chatId : Nat
  content : String
  isUserMessage : Bool
  createdAt : Nat
deriving DecidableEq

/-- `Map.set`: replace in place if the key is present, append otherwise. -/
def mapSet {α : Type} (key : α → Nat) (l : List α) (i : Nat) (v : α) : List α :=
  if l.any (fun x => key x == i) then l.map (fun x => if key x == i then v else x)
  else l ++ [v]

/-- `Map.get`: first element with the given key. -/
def mapGet {α : Type} (key : α → Nat) (l : List α) (i : Nat) : Option α :=
  l.find? (fun x => key x == i)

/-- `Map.delete`: drop the element with the given key. -/
def mapDelete {α : Type} (key : α → Nat) (l : List α) (i : Nat) : List α :=
  l.filter (fun x => key x != i)

/-- The in-memory storage (`MemStorage`): one `Map` per table plus id counters.
`clock` models `Date.now`, advanced at each record creation or update. -/
structure MemStorage where
  posts : List Post
  comments : List Comment
  votes : List Vote
  documents : List Document
  aiChats : List AiChat
  aiChatMessages : List AiChatMessage
  postIdCounter : Nat
  commentIdCounter : Nat
  voteIdCounter : Nat
  documentIdCounter : Nat
  aiChatIdCounter : Nat
  aiChatMessageIdCounter : Nat
  clock : Nat
deriving DecidableEq

def emptyStorage : MemStorage :=
  ⟨[], [], [], [], [], [], 1, 1, 1, 1, 1, 1, 0⟩

/-- Argument of `MemStorage.createPost` (fields picked by `insertPostSchema`). -/
structure InsertPost where
  title : String
  content : String
  userId : Nat
  category : String
  tags : Option (List String)
deriving DecidableEq

/-- `MemStorage.createPost`: fresh id and timestamps, zero views, both flags false. -/
def MemStorage.createPost (st : MemStorage) (p : InsertPost) : Post × MemStorage :=
  let i := st.postIdCounter
  let post : Post :=
    ⟨i, p.title, p.content, p.userId, p.category, p.tags, st.clock, st.clock, 0, false, false⟩
  (post, { st with posts := mapSet Post.id st.posts i post,
                   postIdCounter := i + 1, clock := st.clock + 1 })

def MemStorage.getPost (st : MemStorage) (i : Nat) : Option Post :=
  mapGet Post.id st.posts i

/-- The subset of `Post` fields the routes ever pass to `updatePost`. -/
structure PostUpdate where
  views : Option Nat
  isAnswered : Option Bool
  hasAiAnswer : Option Bool
deriving DecidableEq

/-- `MemStorage.updatePost`: spread-merge the given fields and stamp `updatedAt`. -/
def MemStorage.updatePost (st : MemStorage) (i : Nat) (u : PostUpdate) : MemStorage :=
  match mapGet Post.id st.posts i with
  | none => st
  | some post =>
    let post2 : Post :=
      { post with views := u.views.getD post.views,
                  isAnswered := u.isAnswered.getD post.isAnswered,
                  hasAiAnswer := u.hasAiAnswer.getD post.hasAiAnswer,
                  updatedAt := st.clock }
    { st with posts := mapSet Post.id st.posts i post2, clock := st.clock + 1 }

/-- Argument of `MemStorage.createComment` (fields picked by `insertCommentSchema`). -/
structure InsertComment where
  content : String
  postId : Nat
  userId : Nat
  isAiGenerated : Bool
deriving DecidableEq

def MemStorage.createComment (st : MemStorage) (c : InsertComment) : Comment × MemStorage :=
  let i := st.commentIdCounter
  let comment : Comment := ⟨i, c.content, c.postId, c.userId, c.isAiGenerated, st.clock, 0, 0⟩
  (comment, { st with comments := mapSet Comment.id st.comments i comment,
                      commentIdCounter := i + 1, clock := st.clock + 1 })

def MemStorage.getComment (st : MemStorage) (i : Nat) : Option Comment :=
  mapGet Comment.id st.comments i

/-- Net-score comparator of `MemStorage.getCommentsByPostId`: AI-generated first,
then net vote score descending, then `createdAt` descending. -/
def commentCmp (a b : Comment) : Int :=
  if a.isAiGenerated ≠ b.isAiGenerated then (if a.isAiGenerated then -1 else 1)
  else if ((a.upvotes : Int) - (a.downvotes : Int)) ≠ ((b.upvotes : Int) - (b.downvotes : Int))
    then ((b.upvotes : Int) - (b.downvotes : Int)) - ((a.upvotes : Int) - (a.downvotes : Int))
  else (b.createdAt : Int) - (a.createdAt : Int)

def commentLE (a b : Comment) : Prop := commentCmp a b ≤ 0

instance : DecidableRel commentLE := fun a b => Int.decLe _ _

/-- `MemStorage.getCommentsByPostId`: filter by post, sort by `commentCmp`. -/
def MemStorage.getCommentsByPostId (st : MemStorage) (postId : Nat) : List Comment :=
  List.insertionSort commentLE (st.comments.filter (fun c => c.postId == postId))

/-- `MemStorage.updateCommentVoteCounts`: recount this comment's votes from the vote table. -/
def MemStorage.updateCommentVoteCounts (st : MemStorage) (i : Nat) : MemStorage :=
  match mapGet Comment.id st.comments i with
  | none => st
  | some comment =>
    let commentVotes := st.votes.filter (fun v => v.commentId == some i)
    let up := (commentVotes.filter (fun v => v.voteType == "upvote")).length
    let down := (commentVotes.filter (fun v => v.voteType == "downvote")).length
    { st with comments :=
        mapSet Comment.id st.comments i { comment with upvotes := up, downvotes := down } }

/-- Argument of `MemStorage.createVote` (fields picked by `insertVoteSchema`). -/
structure InsertVote where
  postId : Option Nat
  commentId : Option Nat
  userId : Nat
  voteType : String
deriving DecidableEq

def MemStorage.createVote (st : MemStorage) (v : InsertVote) : Vote × MemStorage :=
  let i := st.voteIdCounter
  let vote : Vote := ⟨i, v.postId, v.commentId, v.userId, v.voteType, st.clock⟩
  (vote, { st with votes := mapSet Vote.id st.votes i vote,
                   voteIdCounter := i + 1, clock := st.clock + 1 })

def MemStorage.getVoteByUserAndComment (st : MemStorage) (userId commentId : Nat) : Option Vote :=
  st.votes.find? (fun v => v.userId == userId && v.commentId == some commentId)

/-- `MemStorage.updateVote` as called by the routes: only `voteType` is merged. -/
def MemStorage.updateVote (st : MemStorage) (i : Nat) (voteType : String) : MemStorage :=
  match mapGet Vote.id st.votes i with
  | none => st
  | some vote =>
    { st with votes := mapSet Vote.id st.votes i { vote with voteType := voteType } }

def MemStorage.deleteVote (st : MemStorage) (i : Nat) : MemStorage :=
  { st with votes := mapDelete Vote.id st.votes i }

/-- Argument of `MemStorage.createDocument` (fields picked by `insertDocumentSchema`). -/
structure InsertDocument where
  name : String
  description : Option String
  fileType : String
  fileSize : Nat
  category : String
  documentType : String
  filePath : String
  uploadedById : Nat
deriving DecidableEq

/-- `MemStorage.createDocument`: status starts at `"processing"`, `embeddingId` at null. -/
def MemStorage.createDocument (st : MemStorage) (d : InsertDocument) : Document × MemStorage :=
  let i := st.documentIdCounter
  let doc : Document :=
    ⟨i, d.name, d.description, d.fileType, d.fileSize, d.category, d.documentType,
     d.filePath, d.uploadedById, "processing", st.clock, none⟩
  (doc, { st with documents := mapSet Document.id st.documents i doc,
                  documentIdCounter := i + 1, clock := st.clock + 1 })

def MemStorage.getDocument (st : MemStorage) (i : Nat) : Option Document :=
  mapGet Document.id st.documents i

/-- The subset of `Document` fields the routes ever pass to `updateDocument`.
`embeddingId = none` means the field is absent from the update (the routes
never explicitly set it to null). -/
structure DocumentUpdate where
  status : Option String
  embeddingId : Option String
deriving DecidableEq

def MemStorage.updateDocument (st : MemStorage) (i : Nat) (u : DocumentUpdate) : MemStorage :=
  match mapGet Document.id st.documents i with
  | none => st
  | some doc =>
    let doc2 : Document :=
      { doc with status := u.status.getD doc.status,
                 embeddingId := match u.embeddingId with
                                | some e => some e
                                | none => doc.embeddingId }
    { st with documents := mapSet Document.id st.documents i doc2 }

def MemStorage.deleteDocument (st : MemStorage) (i : Nat) : MemStorage :=
  { st with documents := mapDelete Document.id st.documents i }

def MemStorage.getAiChat (st : MemStorage) (i : Nat) : Option AiChat :=
  mapGet AiChat.id st.aiChats i

/-- Argument of `MemStorage.createAiChatMessage`. -/
structure InsertAiChatMessage where
  chatId : Nat
  content : String
  isUserMessage : Bool
deriving DecidableEq

def MemStorage.createAiChatMessage (st : MemStorage) (m : InsertAiChatMessage) :
    AiChatMessage × MemStorage :=
  let i := st.aiChatMessageIdCounter
  let msg : AiChatMessage := ⟨i, m.chatId, m.content, m.isUserMessage, st.clock⟩
  (msg, { st with aiChatMessages := mapSet AiChatMessage.id st.aiChatMessages i msg,
                  aiChatMessageIdCounter := i + 1, clock := st.clock + 1 })

def msgTimeLE (a b : AiChatMessage) : Prop := a.createdAt ≤ b.createdAt

instance : DecidableRel msgTimeLE := fun a b => Nat.decLe _ _

/-- `MemStorage.getAiChatMessages`: the session's messages sorted by creation time. -/
def MemStorage.getAiChatMessages (st : MemStorage) (chatId : Nat) : List AiChatMessage :=
  List.insertionSort msgTimeLE (st.aiChatMessages.filter (fun m => m.chatId == chatId))

/-! ### ChromaDB model (`server/chromadb.ts`) -/

/-- One record held by a ChromaDB collection: id, document text, and the
`name` field of its metadata (the only metadata field `getContextForQuery` reads). -/
structure ChromaEntry where
  id : String
  document : String
  metaName : Option String
deriving DecidableEq

/-- The ChromaDB server state: collection name mapped to its entries. -/
abbrev ChromaIndex := List (String × List ChromaEntry)

/-- The similarity ranking performed inside ChromaDB for `collection.query`
(query text and stored entries to ranked results). External to this repo. -/
abbrev ChromaSelect := String → List ChromaEntry → List ChromaEntry

/-- The `COLLECTION_NAMES` map of `chromadb.ts`. -/
def COLLECTION_NAMES (category : String) : Option String :=
  match category with
  | "technical" => some "technical_support_docs"
  | "ideas" => some "product_ideas_docs"
  | "general" => some "general_queries_docs"
  | "hr" => some "hr_onboarding_docs"
  | _ => none

/-- `getCollection`: throws on a category outside `COLLECTION_NAMES`, and the
ChromaDB client throws when the named collection does not exist. -/
def getCollection (idx : ChromaIndex) (category : String) :
    Except String (List ChromaEntry) :=
  match COLLECTION_NAMES category with
  | none => .error ("Invalid category: " ++ category)
  | some name =>
    match idx.find? (fun p => p.1 == name) with
    | none => .error ("Collection " ++ name ++ " does not exist")
    | some p => .ok p.2

/-- `queryDocuments`: fetch the collection, then `collection.query`; `fault`
models the underlying service throwing during the query call. -/
def queryDocuments (fault : Bool) (sel : ChromaSelect) (idx : ChromaIndex)
    (query category : String) : Except String (List ChromaEntry) :=
  match getCollection idx category with
  | .error e => .error e
  | .ok entries => if fault then .error "Chroma service error" else .ok (sel query entries)

/-- The context-assembly loop of `getContextForQuery`; `metadata.name || "Document"`
(empty string is falsy in JavaScript). -/
def contextFromResults (docs : List ChromaEntry) : String :=
  docs.foldl
    (fun ctx e =>
      let docName := match e.metaName with
                     | some n => if n == "" then "Document" else n
                     | none => "Document"
      ctx ++ docName ++ ":\n" ++ e.document ++ "\n\n")
    "Relevant information from documents:\n\n"

/-- `getContextForQuery`: any error inside the try block is caught and turned
into the empty string; an empty result list also yields the empty string. -/
def getContextForQuery (fault : Bool) (sel : ChromaSelect) (idx : ChromaIndex)
    (query category : String) : String :=
  match queryDocuments fault sel idx query category with
  | .error _ => ""
  | .ok docs => if docs.isEmpty then "" else contextFromResults docs

/-- `chromadb.ts` `deleteDocument`: fetch the collection, then
`collection.delete` the given id; rethrows on failure. -/
def chromaDeleteDocument (idx : ChromaIndex) (docId category : String) :
    Except String ChromaIndex :=
  match COLLECTION_NAMES category with
  | none => .error ("Invalid category: " ++ category)
  | some name =>
    match idx.find? (fun p => p.1 == name) with
    | none => .error ("Collection " ++ name ++ " does not exist")
    | some _ =>
      .ok (idx.map (fun p =>
        if p.1 == name then (p.1, p.2.filter (fun e => e.id != docId)) else p))

/-- `addDocument`: fetch the collection and `collection.add` the entry. -/
def chromaAddDocument (idx : ChromaIndex) (docId content : String)
    (metaName : Option String) (category : String) : Except String ChromaIndex :=
  match COLLECTION_NAMES category with
  | none => .error ("Invalid category: " ++ category)
  | some name =>
    match idx.find? (fun p => p.1 == name) with
    | none => .error ("Collection " ++ name ++ " does not exist")
    | some _ =>
      .ok (idx.map (fun p =>
        if p.1 == name then (p.1, p.2 ++ [⟨docId, content, metaName⟩]) else p))

/-- `processDocument`: read the uploaded file (`fs` maps a path to its content,
`none` models a read failure), then register it under a fresh id (the
`Date.now`-plus-random id generation is modelled by the `docId` argument). -/
def processDocument (fs : String → Option String) (idx : ChromaIndex)
    (filePath docId : String) (metaName : Option String) (category : String) :
    Except String (String × ChromaIndex) :=
  match fs filePath with
  | none => .error "Error reading file"
  | some content =>
    match chromaAddDocument idx docId content metaName category with
    | .error e => .error e
    | .ok idx2 => .ok (docId, idx2)

/-! ### Response generation (`server/awsBedrock.ts`) -/

/-- One message as shaped for the Claude API (`content[0].text` flattened). -/
structure RoleMsg where
  role : String
  text : String
deriving DecidableEq

/-- The external model call behind `generateClaudeResponse`: formatted messages
and system instruction to reply text; `error` models the thrown GenerationError. -/
abbrev Claude := List RoleMsg → String → Except String String

/-- The message list built by `generateForumAIResponse`: the chat history
reshaped, then the new user message appended. -/
def forumAIMessages (userMessage : String) (chatHistory : List (String × String)) :
    List RoleMsg :=
  chatHistory.map (fun rc => ⟨rc.1, rc.2⟩) ++ [⟨"user", userMessage⟩]

/-- The per-category instruction suffix of `generateForumAIResponse`. -/
def categoryInstructions (forumCategory : String) : String :=
  match forumCategory with
  | "technical" => "\n\nWhen answering technical questions, provide code examples when appropriate and refer to docs. Be precise and detailed."
  | "ideas" => "\n\nWhen discussing product ideas, be constructive and encouraging. Suggest improvements or considerations while remaining positive."
  | "general" => "\n\nFor general queries, provide comprehensive information about the organization, processes, and procedures as needed."
  | "hr" => "\n\nFor HR and onboarding questions, be informative about policies, benefits, and procedures. Maintain confidentiality and refer to HR when appropriate for sensitive matters."
  | _ => ""

/-- The system instruction built by `generateForumAIResponse`: base prompt, the
context block when `contextualData` is truthy (non-empty), then the category suffix. -/
def forumAISystem (forumCategory contextualData : String) : String :=
  let base := "You are a helpful AI assistant for the X-AI-Forum specifically focused on the "
      ++ forumCategory ++ " category. \n  Provide accurate, concise, and helpful information. Use a professional and friendly tone."
  let withCtx := if contextualData == "" then base
      else base ++ "\n\nHere is some relevant context to help with your response:\n" ++ contextualData
  withCtx ++ categoryInstructions forumCategory

/-- `generateForumAIResponse`: shape the messages and system instruction, then
call the model. -/
def generateForumAIResponse (claude : Claude) (userMessage : String)
    (chatHistory : List (String × String)) (forumCategory contextualData : String) :
    Except String String :=
  claude (forumAIMessages userMessage chatHistory) (forumAISystem forumCategory contextualData)

/-! ### Route handlers (`server/routes.ts`) -/

/-- The `forum_category` enum check performed by the zod insert schemas. -/
def isValidCategory (c : String) : Bool :=
  c == "technical" || c == "ideas" || c == "general" || c == "hr"

/-- `POST /api/forums/:category/posts`: persist the post, then attempt AI
augmentation inside an inner try whose failure is swallowed; the response is
201 with the post as created in both cases (400 on a schema violation).
Returns the storage state and (status, response body). -/
def createPostHandler (fault : Bool) (sel : ChromaSelect) (idx : ChromaIndex)
    (claude : Claude) (st : MemStorage) (category : String) (userId : Nat)
    (title content : String) (tags : Option (List String)) :
    MemStorage × Nat × Option Post :=
  if isValidCategory category then
    let pst := st.createPost ⟨title, content, userId, category, tags⟩
    let post := pst.1
    let st1 := pst.2
    let contextualData := getContextForQuery fault sel idx (title ++ " " ++ content) category
    match generateForumAIResponse claude content [("user", title ++ "\n" ++ content)]
        category contextualData with
    | .error _ => (st1, 201, some post)
    | .ok aiResponse =>
      let cst := st1.createComment ⟨aiResponse, post.id, 1, true⟩
      let st3 := cst.2.updatePost post.id ⟨none, none, some true⟩
      (st3, 201, some post)
  else (st, 400, none)

/-- `POST /api/posts/:postId/comments`: create a human comment
(`isAiGenerated: false`), then mark the post answered if it was not. -/
def createCommentHandler (st : MemStorage) (postId userId : Nat) (content : String) :
    MemStorage × Nat × Option Comment :=
  match st.getPost postId with
  | none => (st, 404, none)
  | some post =>
    let cst := st.createComment ⟨content, postId, userId, false⟩
    let st2 := if post.isAnswered then cst.2
               else cst.2.updatePost post.id ⟨none, some true, none⟩
    (st2, 201, some cst.1)

/-- `POST /api/comments/:commentId/votes`: toggle/replace/create the user's
vote, then recount the comment's vote tallies from the vote table. -/
def commentVoteHandler (st : MemStorage) (commentId userId : Nat) (voteType : String) :
    MemStorage × Nat :=
  if voteType == "upvote" || voteType == "downvote" then
    match st.getComment commentId with
    | none => (st, 404)
    | some _ =>
      match st.getVoteByUserAndComment userId commentId with
      | some existingVote =>
        if existingVote.voteType == voteType then
          let st1 := st.deleteVote existingVote.id
          (st1.updateCommentVoteCounts commentId, 200)
        else
          let st1 := st.updateVote existingVote.id voteType
          (st1.updateCommentVoteCounts commentId, 200)
      | none =>
        let vst := st.createVote ⟨none, some commentId, userId, voteType⟩
        (vst.2.updateCommentVoteCounts commentId, 201)
  else (st, 400)

/-- The uploaded file as provided by multer: stored path, size, and the
original name's extension without the leading dot. -/
structure UploadedFile where
  path : String
  size : Nat
  ext : String
deriving DecidableEq

/-- `POST /api/documents`, synchronous part: validate, create the Document
Record, and answer 201 with it; `processDocument` is started in the
background and its completion is applied separately by `ingestionComplete`. -/
def uploadDocumentHandler (st : MemStorage) (file : UploadedFile)
    (name : String) (description : Option String) (category documentType : String)
    (userId : Nat) : MemStorage × Nat × Option Document :=
  if name == "" || category == "" || documentType == "" then (st, 400, none)
  else if isValidCategory category then
    let dst := st.createDocument
      ⟨name, description, file.ext, file.size, category, documentType, file.path, userId⟩
    (dst.2, 201, some dst.1)
  else (st, 400, none)

/-- The `.then`/`.catch` continuation of the background `processDocument` call:
on success mark the record processed and store the embedding id, on failure
mark it failed. -/
def ingestionComplete (st : MemStorage) (documentId : Nat)
    (outcome : Except String String) : MemStorage :=
  match outcome with
  | .ok embeddingId => st.updateDocument documentId ⟨some "processed", some embeddingId⟩
  | .error _ => st.updateDocument documentId ⟨some "failed", none⟩

/-- `DELETE /api/documents/:documentId`: permission check, unlink the stored
file, delete the vector-store entry when the record is processed (a failure
there aborts with 500 before the record is removed), then delete the record.
Returns (storage, index, filesystem, status). -/
def deleteDocumentHandler (st : MemStorage) (idx : ChromaIndex) (fs : List String)
    (documentId userId : Nat) : MemStorage × ChromaIndex × List String × Nat :=
  match st.getDocument documentId with
  | none => (st, idx, fs, 404)
  | some doc =>
    if doc.uploadedById ≠ userId then (st, idx, fs, 403)
    else
      let fs2 := fs.filter (fun p => p != doc.filePath)
      match doc.embeddingId with
      | some eid =>
        if doc.status == "processed" then
          match chromaDeleteDocument idx eid doc.category with
          | .error _ => (st, idx, fs2, 500)
          | .ok idx2 => (st.deleteDocument doc.id, idx2, fs2, 200)
        else (st.deleteDocument doc.id, idx, fs2, 200)
      | none => (st.deleteDocument doc.id, idx, fs2, 200)

/-! ### WebSocket chat handling (`wss.on('connection')` in `server/routes.ts`) -/

/-- One invocation of the Response Generator, as observed at the call site:
the `userMessage`, `chatHistory`, category and context arguments passed to
`generateForumAIResponse`. -/
structure GenCall where
  userMessage : String
  chatHistory : List (String × String)
  category : String
  contextualData : String
deriving DecidableEq

/-- Outbound WebSocket event (`ai_response` with the saved message, or `error`). -/
inductive OutEvent where
  | aiResponse (chatId : Nat) (message : AiChatMessage) : OutEvent
  | errorEvent (message : String) : OutEvent
deriving DecidableEq

/-- The role/content pair the WebSocket handler builds from one persisted
chat message (`msg.isUserMessage ? "user" : "assistant"`). -/
def roleOf (x : AiChatMessage) : String × String :=
  (if x.isUserMessage then "user" else "assistant", x.content)

/-- The `chat_message` handler run to completion with no interleaving: persist
the user message, re-read the session's persisted history, fetch context,
invoke the generator (logged in `calls`), persist and emit the reply —
or emit an error event when the chat is missing or generation fails. -/
def handleChatMessage (fault : Bool) (sel : ChromaSelect) (idx : ChromaIndex)
    (claude : Claude) (st : MemStorage) (calls : List GenCall)
    (chatId : Nat) (content : String) : MemStorage × List GenCall × OutEvent :=
  let ust := st.createAiChatMessage ⟨chatId, content, true⟩
  let st1 := ust.2
  match st1.getAiChat chatId with
  | none => (st1, calls, .errorEvent "Chat not found")
  | some chat =>
    let previousMessages := st1.getAiChatMessages chatId
    let chatHistory := previousMessages.map roleOf
    let contextualData := getContextForQuery fault sel idx content chat.category
    let call : GenCall := ⟨content, chatHistory, chat.category, contextualData⟩
    match generateForumAIResponse claude content chatHistory chat.category contextualData with
    | .error e => (st1, calls ++ [call], .errorEvent e)
    | .ok aiResponse =>
      let ast := st1.createAiChatMessage ⟨chatId, aiResponse, false⟩
      (ast.2, calls ++ [call], .aiResponse chatId ast.1)

/-- A Response Generator that always succeeds, with reply text given by `f`. -/
def okGen (f : List RoleMsg → String → String) : Claude :=
  fun ms sys => Except.ok (f ms sys)

/-! ### Interleaving semantics for concurrent `chat_message` handlers

Each inbound WebSocket message spawns an independent async handler; the
`await` boundaries inside it are suspension points where another handler's
work can run. One handler is a sequence of four atomic segments:
persist the user message (runs synchronously at event dispatch), re-read
the history, start generation (the context fetch just before it does not
touch stored state), and persist the generated reply. A schedule picks
which pending handler runs its next segment. -/

/-- Program counter and local variables of one in-flight handler. -/
structure HandlerSt where
  chatId : Nat
  content : String
  pc : Nat
  hist : List (String × String)
  category : String
  resp : String
deriving DecidableEq

/-- Shared world: the storage plus the log of generator invocations. -/
structure ChatWorld where
  store : MemStorage
  calls : List GenCall
deriving DecidableEq

/-- Run one segment of one handler. `reply` is the (deterministic, successful)
Response Generator used for the run. -/
def hstep (reply : GenCall → String) (w : ChatWorld) (h : HandlerSt) :
    ChatWorld × HandlerSt :=
  if h.pc = 0 then
    let ust := w.store.createAiChatMessage ⟨h.chatId, h.content, true⟩
    ({ w with store := ust.2 }, { h with pc := 1 })
  else if h.pc = 1 then
    let category := match w.store.getAiChat h.chatId with
                    | some chat => chat.category
                    | none => ""
    let hist := (w.store.getAiChatMessages h.chatId).map roleOf
    (w, { h with hist := hist, category := category, pc := 2 })
  else if h.pc = 2 then
    let call : GenCall := ⟨h.content, h.hist, h.category, ""⟩
    ({ w with calls := w.calls ++ [call] }, { h with resp := reply call, pc := 3 })
  else if h.pc = 3 then
    let ast := w.store.createAiChatMessage ⟨h.chatId, h.resp, false⟩
    ({ w with store := ast.2 }, { h with pc := 4 })
  else (w, h)

/-- Two handlers sharing the world; `true` schedules the first handler. -/
def sstep (reply : GenCall → String) (s : ChatWorld × HandlerSt × HandlerSt)
    (b : Bool) : ChatWorld × HandlerSt × HandlerSt :=
  if b then
    let r := hstep reply s.1 s.2.1
    (r.1, r.2, s.2.2)
  else
    let r := hstep reply s.1 s.2.2
    (r.1, s.2.1, r.2)

/-- Run a schedule over two concurrent handlers. -/
def runSched (reply : GenCall → String) (init : ChatWorld × HandlerSt × HandlerSt)
    (sched : List Bool) : ChatWorld × HandlerSt × HandlerSt :=
  sched.foldl (sstep reply) init

/-- A fresh handler for one inbound `chat_message` event. -/
def newHandler (chatId : Nat) (content : String) : HandlerSt :=
  ⟨chatId, content, 0, [], "", ""⟩

/-! ### Helper lemmas about the `Map` model -/

theorem find?_replaceFun_self {α : Type} (key : α → Nat) (i : Nat) (v : α)
    (hk : key v = i) (l : List α) (hany : l.any (fun x => key x == i) = true) :
    (l.map (fun x => if key x == i then v else x)).find? (fun x => key x == i)
      = some v := by
  induction l with
  | nil => simp at hany
  | cons a t ih =>
    rw [List.map_cons]
    by_cases ha : key a = i
    · rw [if_pos (by simpa using ha)]
      exact List.find?_cons_of_pos _ (by simpa using hk)
    · rw [if_neg (by simpa using ha), List.find?_cons_of_neg _ (by simpa using ha)]
      apply ih
      rcases List.any_eq_true.mp hany with ⟨x, hx, hkx⟩
      rcases List.mem_cons.mp hx with rfl | hxt
      · exact absurd (by simpa using hkx) ha
      · exact List.any_eq_true.mpr ⟨x, hxt, hkx⟩

theorem find?_replaceFun_ne {α : Type} (key : α → Nat) (i j : Nat) (v : α)
    (hk : key v = i) (hij : j ≠ i) (l : List α) :
    (l.map (fun x => if key x == i then v else x)).find? (fun x => key x == j)
      = l.find? (fun x => key x == j) := by
  induction l with
  | nil => rfl
  | cons a t ih =>
    rw [List.map_cons]
    by_cases ha : key a = i
    · rw [if_pos (by simpa using ha)]
      have h1 : List.find? (fun x => key x == j)
          (v :: t.map (fun x => if key x == i then v else x))
          = List.find? (fun x => key x == j)
            (t.map (fun x => if key x == i then v else x)) := by
        apply List.find?_cons_of_neg
        simp only [beq_iff_eq, hk]
        omega
      have h2 : List.find? (fun x => key x == j) (a :: t)
          = List.find? (fun x => key x == j) t := by
        apply List.find?_cons_of_neg
        simp only [beq_iff_eq, ha]
        omega
      rw [h1, h2]
      exact ih
    · rw [if_neg (by simpa using ha)]
      by_cases haj : key a = j
      · have h1 : List.find? (fun x => key x == j)
            (a :: t.map (fun x => if key x == i then v else x)) = some a :=
          List.find?_cons_of_pos _ (by simpa using haj)
        have h2 : List.find? (fun x => key x == j) (a :: t) = some a :=
          List.find?_cons_of_pos _ (by simpa using haj)
        rw [h1, h2]
      · have h1 : List.find? (fun x => key x == j)
            (a :: t.map (fun x => if key x == i then v else x))
            = List.find? (fun x => key x == j)
              (t.map (fun x => if key x == i then v else x)) :=
          List.find?_cons_of_neg _ (by simpa using haj)
        have h2 : List.find? (fun x => key x == j) (a :: t)
            = List.find? (fun x => key x == j) t :=
          List.find?_cons_of_neg _ (by simpa using haj)
        rw [h1, h2]
        exact ih

theorem mapGet_mapSet_self {α : Type} (key : α → Nat) (l : List α) (i : Nat) (v : α)
    (hk : key v = i) : mapGet key (mapSet key l i v) i = some v := by
  unfold mapGet mapSet
  by_cases hany : l.any (fun x => key x == i) = true
  · rw [if_pos hany]
    exact find?_replaceFun_self key i v hk l hany
  · rw [if_neg hany, List.find?_append]
    have hl : l.find? (fun x => key x == i) = none := by
      rw [List.find?_eq_none]
      intro x hx hkx
      exact hany (List.any_eq_true.mpr ⟨x, hx, hkx⟩)
    rw [hl]
    simp [hk]

theorem mapGet_mapSet_ne {α : Type} (key : α → Nat) (l : List α) (i j : Nat) (v : α)
    (hk : key v = i) (hij : j ≠ i) :
    mapGet key (mapSet key l i v) j = mapGet key l j := by
  unfold mapGet mapSet
  by_cases hany : l.any (fun x => key x == i) = true
  · rw [if_pos hany]
    exact find?_replaceFun_ne key i j v hk hij l
  · rw [if_neg hany, List.find?_append]
    cases hfl : l.find? (fun x => key x == j) with
    | some w => simp
    | none =>
      have hvj : ¬ (key v == j) = true := by
        simp only [beq_iff_eq, hk]
        omega
      simp [hvj]

theorem mapSet_eq_append {α : Type} (key : α → Nat) (l : List α) (i : Nat) (v : α)
    (h : ∀ x ∈ l, key x ≠ i) : mapSet key l i v = l ++ [v] := by
  unfold mapSet
  have hfalse : l.any (fun x => key x == i) = false := by
    cases hb : l.any (fun x => key x == i) with
    | false => rfl
    | true =>
      rcases List.any_eq_true.mp hb with ⟨x, hx, hkx⟩
      exact absurd (by simpa using hkx) (h x hx)
  simp [hfalse]

theorem insertionSort_eq_nil {α : Type} (r : α → α → Prop) [DecidableRel r] (l : List α)
    (h : List.insertionSort r l = []) : l = [] := by
  have := List.perm_insertionSort r l
  rw [h] at this
  exact (List.Perm.nil_eq this).symm

/-! ### The comment ordering relation -/

/-- Net vote score of a comment. -/
def score (c : Comment) : Int := (c.upvotes : Int) - (c.downvotes : Int)

/-- The ordering on comments as the spec describes it: AI-generated before
human, then net score descending, then newer first. -/
def commentClaimOrder (a b : Comment) : Prop :=
  (a.isAiGenerated = true ∧ b.isAiGenerated = false) ∨
  (a.isAiGenerated = b.isAiGenerated ∧
    (score b < score a ∨ (score a = score b ∧ b.createdAt ≤ a.createdAt)))

theorem commentLE_iff (a b : Comment) : commentLE a b ↔ commentClaimOrder a b := by
  unfold commentLE commentCmp commentClaimOrder score
  by_cases hab : a.isAiGenerated = b.isAiGenerated
  · rw [if_neg (not_not_intro hab), hab]
    have hfalse : ¬ (b.isAiGenerated = true ∧ b.isAiGenerated = false) := by
      rintro ⟨h1, h2⟩
      rw [h1] at h2
      exact Bool.noConfusion h2
    rw [or_iff_right hfalse]
    simp only [true_and]
    split_ifs with hsc
    · constructor
      · intro h
        left
        omega
      · rintro (h | ⟨h, _⟩)
        · omega
        · exact absurd h hsc
    · constructor
      · intro h
        right
        constructor
        · omega
        · omega
      · intro _
        omega
  · rw [if_pos hab]
    cases ha : a.isAiGenerated with
    | true =>
      have hb : b.isAiGenerated = false := by
        cases hbv : b.isAiGenerated with
        | false => rfl
        | true =>
          rw [ha, hbv] at hab
          exact absurd rfl hab
      simp [ha, hb]
    | false =>
      have hb : b.isAiGenerated = true := by
        cases hbv : b.isAiGenerated with
        | true => rfl
        | false =>
          rw [ha, hbv] at hab
          exact absurd rfl hab
      simp [ha, hb]

theorem commentClaimOrder_total (a b : Comment) :
    commentClaimOrder a b ∨ commentClaimOrder b a := by
  unfold commentClaimOrder score
  cases ha : a.isAiGenerated <;> cases hb : b.isAiGenerated <;> simp [ha, hb] <;> omega

theorem commentClaimOrder_trans (a b c : Comment) (h1 : commentClaimOrder a b)
    (h2 : commentClaimOrder b c) : commentClaimOrder a c := by
  unfold commentClaimOrder score at h1 h2 ⊢
  cases ha : a.isAiGenerated <;> cases hb : b.isAiGenerated <;> cases hc : c.isAiGenerated <;>
    simp [ha, hb, hc] at h1 h2 ⊢ <;> omega

instance : IsTotal Comment commentLE :=
  ⟨fun a b => by
    rw [commentLE_iff, commentLE_iff]
    exact commentClaimOrder_total a b⟩

instance : IsTrans Comment commentLE :=
  ⟨fun a b c h1 h2 => by
    rw [commentLE_iff] at h1 h2 ⊢
    exact commentClaimOrder_trans a b c h1 h2⟩

/-- A category outside the enumeration has no collection name. -/
theorem COLLECTION_NAMES_eq_none (c : String) (h : isValidCategory c = false) :
    COLLECTION_NAMES c = none := by
  unfold COLLECTION_NAMES
  split <;> simp_all [isValidCategory]

/-- A found map entry sits at the looked-up key. -/
theorem mapGet_key {α : Type} (key : α → Nat) (l : List α) (i : Nat) (v : α)
    (h : mapGet key l i = some v) : key v = i := by
  have := List.find?_some h
  simpa using this

/-- Creating a post stores it under its fresh id. -/
theorem getPost_createPost_self (st : MemStorage) (p : InsertPost) :
    (st.createPost p).2.getPost (st.createPost p).1.id = some (st.createPost p).1 :=
  mapGet_mapSet_self Post.id st.posts st.postIdCounter _ rfl

/-- Creating a comment does not touch the posts table. -/
theorem getPost_createComment (st : MemStorage) (c : InsertComment) (i : Nat) :
    (st.createComment c).2.getPost i = st.getPost i := rfl

/-- `updatePost` on a stored post merges the given fields and stamps `updatedAt`. -/
theorem getPost_updatePost_self (st : MemStorage) (i : Nat) (u : PostUpdate) (p : Post)
    (h : st.getPost i = some p) :
    (st.updatePost i u).getPost i = some
      { p with views := u.views.getD p.views, isAnswered := u.isAnswered.getD p.isAnswered,
               hasAiAnswer := u.hasAiAnswer.getD p.hasAiAnswer, updatedAt := st.clock } := by
  have hid : Post.id p = i := mapGet_key Post.id st.posts i p h
  unfold MemStorage.updatePost
  rw [show mapGet Post.id st.posts i = some p from h]
  exact mapGet_mapSet_self Post.id st.posts i _ hid

/-! ### Concrete stand-ins used by the witness theorems -/

/-- A Response Generator stub that always fails (injected GenerationError). -/
def errClaude : Claude := fun _ _ => .error "GenerationError"

/-- A Response Generator stub that echoes its system instruction (and hence
its context block). -/
def echoClaude : Claude := fun _ sys => .ok sys

/-- A similarity ranking that never returns anything. -/
def noSel : ChromaSelect := fun _ _ => []

/-- A similarity ranking that returns everything stored, in order. -/
def allSel : ChromaSelect := fun _ entries => entries

/-! ### Claims -/

/-- Claim C8: for every post, listing its comments returns exactly that post's
comments, ordered with all AI-generated comments before all human comments,
then by net vote score descending, with ties broken by creation time newest
first (`MemStorage.getCommentsByPostId`). -/
theorem c8_comments_ai_first_then_score_then_newest (st : MemStorage) (postId : Nat) :
    (st.getCommentsByPostId postId).Perm
        (st.comments.filter (fun c => c.postId == postId)) ∧
    (st.getCommentsByPostId postId).Pairwise commentClaimOrder := by
  constructor
  · exact List.perm_insertionSort _ _
  · have h := List.sorted_insertionSort commentLE
      (st.comments.filter (fun c => c.postId == postId))
    exact List.Pairwise.imp (fun hxy => (commentLE_iff _ _).mp hxy) h

/-- Claim C4: `getContextForQuery` fails closed for every query and category:
it returns the empty string when the category is outside the fixed
enumeration, when the collection lookup fails, when the underlying service
errors during the query, and when no documents match; no failure propagates
to the caller. -/
theorem c4_getContextForQuery_fails_closed (fault : Bool) (sel : ChromaSelect)
    (idx : ChromaIndex) (q cat : String) :
    (isValidCategory cat = false → getContextForQuery fault sel idx q cat = "") ∧
    (∀ e, getCollection idx cat = .error e → getContextForQuery fault sel idx q cat = "") ∧
    (fault = true → getContextForQuery fault sel idx q cat = "") ∧
    (∀ entries, getCollection idx cat = .ok entries → sel q entries = [] →
      getContextForQuery fault sel idx q cat = "") := by
  have herr : ∀ e, getCollection idx cat = .error e →
      getContextForQuery fault sel idx q cat = "" := by
    intro e he
    simp [getContextForQuery, queryDocuments, he]
  refine ⟨?_, herr, ?_, ?_⟩
  · intro hval
    cases hgc : getCollection idx cat with
    | error e => exact herr e hgc
    | ok entries =>
      exfalso
      unfold getCollection at hgc
      rw [COLLECTION_NAMES_eq_none cat hval] at hgc
      exact Except.noConfusion hgc
  · intro hfault
    cases hgc : getCollection idx cat with
    | error e => exact herr e hgc
    | ok entries => simp [getContextForQuery, queryDocuments, hgc, hfault]
  · intro entries hgc hsel
    cases fault with
    | true => simp [getContextForQuery, queryDocuments, hgc]
    | false => simp [getContextForQuery, queryDocuments, hgc, hsel]

/-- Witness for C4 at concrete inputs: an empty-result query on a valid,
existing, healthy collection yields the empty context. -/
theorem c4_witness :
    getCollection [("technical_support_docs", [])] "technical" = .ok ([] : List ChromaEntry) ∧
    getContextForQuery false noSel [("technical_support_docs", [])] "q" "technical" = "" :=
  ⟨by rfl,
   (c4_getContextForQuery_fails_closed false noSel [("technical_support_docs", [])]
     "q" "technical").2.2.2 [] (by rfl) (by rfl)⟩

/-- Claim C1: every valid question submission is persisted and answered with
HTTP 201 carrying the created Question, whatever the Response Generator does;
when the generator fails, the stored Question still has `hasAiAnswer = false`
and no comment has been created. -/
theorem c1_question_persisted_even_on_generation_failure
    (fault : Bool) (sel : ChromaSelect) (idx : ChromaIndex) (claude : Claude)
    (st : MemStorage) (category : String) (userId : Nat) (title content : String)
    (tags : Option (List String)) (hcat : isValidCategory category = true) :
    ∃ stOut post,
      createPostHandler fault sel idx claude st category userId title content tags
        = (stOut, 201, some post) ∧
      (∃ p2, stOut.getPost post.id = some p2) ∧
      (∀ e, generateForumAIResponse claude content [("user", title ++ "\n" ++ content)]
          category (getContextForQuery fault sel idx (title ++ " " ++ content) category)
          = .error e →
        stOut.getPost post.id = some post ∧ post.hasAiAnswer = false ∧
        stOut.comments = st.comments) := by
  simp only [createPostHandler, hcat, eq_self_iff_true, if_true]
  cases hg : generateForumAIResponse claude content [("user", title ++ "\n" ++ content)]
      category (getContextForQuery fault sel idx (title ++ " " ++ content) category) with
  | error e =>
    exact ⟨_, _, rfl,
      ⟨_, getPost_createPost_self st ⟨title, content, userId, category, tags⟩⟩,
      fun e2 _ => ⟨getPost_createPost_self st ⟨title, content, userId, category, tags⟩,
        rfl, rfl⟩⟩
  | ok aiResponse =>
    refine ⟨_, _, rfl, ?_, fun e2 he2 => absurd he2 (by simp)⟩
    exact ⟨_, getPost_updatePost_self _ _ _ _
      (getPost_createPost_self st ⟨title, content, userId, category, tags⟩)⟩

/-- Witness for C1: a concrete valid question with a generator forced to fail;
the Question is stored, the response is 201 with it, its `hasAiAnswer` is
false and the comment table is untouched. -/
theorem c1_witness :
    isValidCategory "technical" = true ∧
    ∃ stOut post,
      createPostHandler false noSel [] errClaude emptyStorage "technical" 7 "VPN setup"
          "How do I configure VPN on Linux?" none = (stOut, 201, some post) ∧
      (∃ p2, stOut.getPost post.id = some p2) ∧
      (∀ e, generateForumAIResponse errClaude "How do I configure VPN on Linux?"
          [("user", "VPN setup" ++ "\n" ++ "How do I configure VPN on Linux?")]
          "technical" (getContextForQuery false noSel []
            ("VPN setup" ++ " " ++ "How do I configure VPN on Linux?") "technical")
          = .error e →
        stOut.getPost post.id = some post ∧ post.hasAiAnswer = false ∧
        stOut.comments = emptyStorage.comments) :=
  ⟨by decide,
   c1_question_persisted_even_on_generation_failure false noSel [] errClaude emptyStorage
     "technical" 7 "VPN setup" "How do I configure VPN on Linux?" none (by decide)⟩

/-- `updatePost` does not touch the comments table. -/
theorem getComment_updatePost (st : MemStorage) (i : Nat) (u : PostUpdate) (j : Nat) :
    (st.updatePost i u).getComment j = st.getComment j := by
  unfold MemStorage.updatePost
  cases mapGet Post.id st.posts i <;> rfl

/-- Creating a comment stores it under its fresh id. -/
theorem getComment_createComment_self (st : MemStorage) (c : InsertComment) :
    (st.createComment c).2.getComment (st.createComment c).1.id = some (st.createComment c).1 :=
  mapGet_mapSet_self Comment.id st.comments st.commentIdCounter _ rfl

/-- Claim C5: on the success path of a forum submission with non-empty
retrieved context, an `isAiGenerated` comment is created whose content is
exactly the generator's output, and the stored parent Question ends with
`hasAiAnswer = true`; when the generator is the stub echoing its system
instruction, its output (the comment content) contains the context string. -/
theorem c5_ai_answer_created_on_success
    (fault : Bool) (sel : ChromaSelect) (idx : ChromaIndex) (claude : Claude)
    (st : MemStorage) (category : String) (userId : Nat) (title content : String)
    (tags : Option (List String)) (r : String)
    (hcat : isValidCategory category = true)
    (hgen : generateForumAIResponse claude content [("user", title ++ "\n" ++ content)]
      category (getContextForQuery fault sel idx (title ++ " " ++ content) category)
      = .ok r) :
    ∃ stOut post comment,
      createPostHandler fault sel idx claude st category userId title content tags
        = (stOut, 201, some post) ∧
      stOut.getComment st.commentIdCounter = some comment ∧
      comment.postId = post.id ∧ comment.isAiGenerated = true ∧ comment.content = r ∧
      (∃ p2, stOut.getPost post.id = some p2 ∧ p2.hasAiAnswer = true) ∧
      (claude = echoClaude →
        getContextForQuery fault sel idx (title ++ " " ++ content) category ≠ "" →
        ∃ pre suf, r = pre ++
          getContextForQuery fault sel idx (title ++ " " ++ content) category ++ suf) := by
  simp only [createPostHandler, hcat, eq_self_iff_true, if_true, hgen]
  refine ⟨_, _, ((st.createPost ⟨title, content, userId, category, tags⟩).2.createComment
      ⟨r, (st.createPost ⟨title, content, userId, category, tags⟩).1.id, 1, true⟩).1,
    rfl, ?_, rfl, rfl, rfl, ?_, ?_⟩
  · rw [getComment_updatePost]
    exact getComment_createComment_self _ ⟨r, _, 1, true⟩
  · refine ⟨_, getPost_updatePost_self _ _ _
        (st.createPost ⟨title, content, userId, category, tags⟩).1 ?_, rfl⟩
    exact getPost_createPost_self st ⟨title, content, userId, category, tags⟩
  · intro hclaude hctx
    subst hclaude
    have h2 : Except.ok (α := String)
        (forumAISystem category
          (getContextForQuery fault sel idx (title ++ " " ++ content) category))
        = Except.ok r := hgen
    have hr : forumAISystem category
        (getContextForQuery fault sel idx (title ++ " " ++ content) category) = r := by
      injection h2
    rw [← hr]
    refine ⟨"You are a helpful AI assistant for the X-AI-Forum specifically focused on the "
        ++ category
        ++ " category. \n  Provide accurate, concise, and helpful information. Use a professional and friendly tone."
        ++ "\n\nHere is some relevant context to help with your response:\n",
      categoryInstructions category, ?_⟩
    simp only [forumAISystem]
    rw [if_neg (by simpa using hctx)]

/-- Witness for C5: the concrete spec scenario — a VPN question on
`technical`, the retriever returning a stubbed runbook snippet, and the
generator echoing its instruction; the AI comment is created, contains the
context, and the Question ends up with `hasAiAnswer = true`. -/
theorem c5_witness :
    isValidCategory "technical" = true ∧
    ∃ stOut post comment,
      createPostHandler false allSel
          [("technical_support_docs",
            [⟨"doc1", "Doc: VPN Runbook\nUse openconnect with profile X", some "VPN Runbook"⟩])]
          echoClaude emptyStorage "technical" 7 "VPN setup"
          "How do I configure VPN on Linux?" none
        = (stOut, 201, some post) ∧
      stOut.getComment emptyStorage.commentIdCounter = some comment ∧
      comment.postId = post.id ∧ comment.isAiGenerated = true ∧
      comment.content = forumAISystem "technical"
        (getContextForQuery false allSel
          [("technical_support_docs",
            [⟨"doc1", "Doc: VPN Runbook\nUse openconnect with profile X", some "VPN Runbook"⟩])]
          ("VPN setup" ++ " " ++ "How do I configure VPN on Linux?") "technical") ∧
      (∃ p2, stOut.getPost post.id = some p2 ∧ p2.hasAiAnswer = true) ∧
      (echoClaude = echoClaude →
        getContextForQuery false allSel
          [("technical_support_docs",
            [⟨"doc1", "Doc: VPN Runbook\nUse openconnect with profile X", some "VPN Runbook"⟩])]
          ("VPN setup" ++ " " ++ "How do I configure VPN on Linux?") "technical" ≠ "" →
        ∃ pre suf, forumAISystem "technical"
          (getContextForQuery false allSel
            [("technical_support_docs",
              [⟨"doc1", "Doc: VPN Runbook\nUse openconnect with profile X", some "VPN Runbook"⟩])]
            ("VPN setup" ++ " " ++ "How do I configure VPN on Linux?") "technical")
          = pre ++ getContextForQuery false allSel
            [("technical_support_docs",
              [⟨"doc1", "Doc: VPN Runbook\nUse openconnect with profile X", some "VPN Runbook"⟩])]
            ("VPN setup" ++ " " ++ "How do I configure VPN on Linux?") "technical" ++ suf) :=
  ⟨by decide,
   c5_ai_answer_created_on_success false allSel
     [("technical_support_docs",
       [⟨"doc1", "Doc: VPN Runbook\nUse openconnect with profile X", some "VPN Runbook"⟩])]
     echoClaude emptyStorage "technical" 7 "VPN setup" "How do I configure VPN on Linux?"
     none _ (by decide) rfl⟩

/-- Claim C9: the AI-answer path never changes the Question's `isAnswered`
flag, and the human-comment path sets `isAnswered = true` (updating the
record only when it was false); on both paths title, content, category and
views of the Question are unchanged. -/
theorem c9_comment_paths_preserve_question_fields
    (fault : Bool) (sel : ChromaSelect) (idx : ChromaIndex) (claude : Claude)
    (st : MemStorage) (category : String) (userId : Nat) (title content : String)
    (tags : Option (List String)) (hcat : isValidCategory category = true) :
    (∃ stOut post, createPostHandler fault sel idx claude st category userId title content tags
        = (stOut, 201, some post) ∧
      ∃ p2, stOut.getPost post.id = some p2 ∧ p2.isAnswered = false ∧
        p2.title = title ∧ p2.content = content ∧ p2.category = category ∧ p2.views = 0) ∧
    (∀ st2 postId uid ctext post, st2.getPost postId = some post →
      ∃ p2, (createCommentHandler st2 postId uid ctext).1.getPost postId = some p2 ∧
        p2.isAnswered = true ∧ p2.hasAiAnswer = post.hasAiAnswer ∧
        p2.title = post.title ∧ p2.content = post.content ∧
        p2.category = post.category ∧ p2.views = post.views ∧
        (post.isAnswered = true → p2 = post)) := by
  constructor
  · simp only [createPostHandler, hcat, eq_self_iff_true, if_true]
    cases hg : generateForumAIResponse claude content [("user", title ++ "\n" ++ content)]
        category (getContextForQuery fault sel idx (title ++ " " ++ content) category) with
    | error e =>
      exact ⟨_, _, rfl, _,
        getPost_createPost_self st ⟨title, content, userId, category, tags⟩,
        rfl, rfl, rfl, rfl, rfl⟩
    | ok aiResponse =>
      exact ⟨_, _, rfl, _,
        getPost_updatePost_self _ _ _ _
          (getPost_createPost_self st ⟨title, content, userId, category, tags⟩),
        rfl, rfl, rfl, rfl, rfl⟩
  · intro st2 postId uid ctext post hpost
    have hid : Post.id post = postId := mapGet_key Post.id st2.posts postId post hpost
    simp only [createCommentHandler, hpost]
    cases hba : post.isAnswered with
    | true =>
      rw [if_pos rfl]
      refine ⟨post, hpost, hba, rfl, rfl, rfl, rfl, rfl, fun _ => rfl⟩
    | false =>
      rw [if_neg Bool.false_ne_true, hid]
      have hpost3 : (st2.createComment ⟨ctext, postId, uid, false⟩).2.getPost postId
          = some post := hpost
      exact ⟨_, getPost_updatePost_self _ postId ⟨none, some true, none⟩ post hpost3,
        rfl, rfl, rfl, rfl, rfl, rfl, fun hcontra => Bool.noConfusion hcontra⟩

/-- Witness for C9 at concrete inputs: a question posted on `technical` with
a failing generator, then a human comment on that question. -/
theorem c9_witness :
    isValidCategory "technical" = true ∧
    ((∃ stOut post, createPostHandler false noSel [] errClaude emptyStorage "technical" 7
        "VPN setup" "How do I configure VPN on Linux?" none = (stOut, 201, some post) ∧
      ∃ p2, stOut.getPost post.id = some p2 ∧ p2.isAnswered = false ∧
        p2.title = "VPN setup" ∧ p2.content = "How do I configure VPN on Linux?" ∧
        p2.category = "technical" ∧ p2.views = 0) ∧
    (∀ st2 postId uid ctext post, st2.getPost postId = some post →
      ∃ p2, (createCommentHandler st2 postId uid ctext).1.getPost postId = some p2 ∧
        p2.isAnswered = true ∧ p2.hasAiAnswer = post.hasAiAnswer ∧
        p2.title = post.title ∧ p2.content = post.content ∧
        p2.category = post.category ∧ p2.views = post.views ∧
        (post.isAnswered = true → p2 = post))) :=
  ⟨by decide,
   c9_comment_paths_preserve_question_fields false noSel [] errClaude emptyStorage
     "technical" 7 "VPN setup" "How do I configure VPN on Linux?" none (by decide)⟩

/-- Creating a document stores it under its fresh id. -/
theorem getDocument_createDocument_self (st : MemStorage) (d : InsertDocument) :
    (st.createDocument d).2.getDocument (st.createDocument d).1.id
      = some (st.createDocument d).1 :=
  mapGet_mapSet_self Document.id st.documents st.documentIdCounter _ rfl

/-- `updateDocument` on a stored record merges the given fields. -/
theorem getDocument_updateDocument_self (st : MemStorage) (i : Nat) (u : DocumentUpdate)
    (d : Document) (h : st.getDocument i = some d) :
    (st.updateDocument i u).getDocument i = some
      { d with status := u.status.getD d.status,
               embeddingId := match u.embeddingId with
                              | some e => some e
                              | none => d.embeddingId } := by
  have hid : Document.id d = i := mapGet_key Document.id st.documents i d h
  unfold MemStorage.updateDocument
  rw [show mapGet Document.id st.documents i = some d from h]
  exact mapGet_mapSet_self Document.id st.documents i _ hid

/-- Claim C6: a document upload creates the record with status `processing`
and a null `embeddingId` and returns 201 with that record before ingestion
resolves; ingestion completing successfully sets status `processed` and a
non-null `embeddingId`, while a failed ingestion sets status `failed` with
`embeddingId` still null. -/
theorem c6_document_status_lifecycle
    (st : MemStorage) (file : UploadedFile) (name : String) (description : Option String)
    (category documentType : String) (userId : Nat)
    (hname : name ≠ "") (hcatne : category ≠ "") (hdt : documentType ≠ "")
    (hcat : isValidCategory category = true) :
    ∃ stOut doc,
      uploadDocumentHandler st file name description category documentType userId
        = (stOut, 201, some doc) ∧
      doc.status = "processing" ∧ doc.embeddingId = none ∧
      stOut.getDocument doc.id = some doc ∧
      (∀ e, ∃ d2, (ingestionComplete stOut doc.id (.ok e)).getDocument doc.id = some d2 ∧
        d2.status = "processed" ∧ d2.embeddingId = some e) ∧
      (∀ err, ∃ d3, (ingestionComplete stOut doc.id (.error err)).getDocument doc.id = some d3 ∧
        d3.status = "failed" ∧ d3.embeddingId = none) := by
  simp only [uploadDocumentHandler]
  rw [if_neg (by simp [hname, hcatne, hdt]), if_pos (by simp [hcat])]
  refine ⟨_, _, rfl, rfl, rfl, ?_, ?_, ?_⟩
  · exact getDocument_createDocument_self st
      ⟨name, description, file.ext, file.size, category, documentType, file.path, userId⟩
  · intro e
    exact ⟨_, getDocument_updateDocument_self _ _ ⟨some "processed", some e⟩ _
      (getDocument_createDocument_self st
        ⟨name, description, file.ext, file.size, category, documentType, file.path, userId⟩),
      rfl, rfl⟩
  · intro err
    exact ⟨_, getDocument_updateDocument_self _ _ ⟨some "failed", none⟩ _
      (getDocument_createDocument_self st
        ⟨name, description, file.ext, file.size, category, documentType, file.path, userId⟩),
      rfl, rfl⟩

/-- Witness for C6 at concrete inputs: an `hr` handbook upload, with both a
successful and a failed ingestion completion. -/
theorem c6_witness :
    ("handbook" : String) ≠ "" ∧
    ∃ stOut doc,
      uploadDocumentHandler emptyStorage ⟨"uploads/1-handbook.pdf", 100, "pdf"⟩ "handbook"
          none "hr" "policy" 7 = (stOut, 201, some doc) ∧
      doc.status = "processing" ∧ doc.embeddingId = none ∧
      stOut.getDocument doc.id = some doc ∧
      (∀ e, ∃ d2, (ingestionComplete stOut doc.id (.ok e)).getDocument doc.id = some d2 ∧
        d2.status = "processed" ∧ d2.embeddingId = some e) ∧
      (∀ err, ∃ d3, (ingestionComplete stOut doc.id (.error err)).getDocument doc.id = some d3 ∧
        d3.status = "failed" ∧ d3.embeddingId = none) :=
  ⟨by decide,
   c6_document_status_lifecycle emptyStorage ⟨"uploads/1-handbook.pdf", 100, "pdf"⟩ "handbook"
     none "hr" "policy" 7 (by decide) (by decide) (by decide) (by decide)⟩

/-- Claim C7: deleting a processed Document Record (owner match, embedding id
set, category collection present) removes the vector-store entry for that
embedding id — no subsequent query on the category ever returns it — removes
the stored file, and removes the record itself. -/
theorem c7_delete_processed_document
    (st : MemStorage) (idx : ChromaIndex) (fs : List String) (documentId userId : Nat)
    (doc : Document) (eid cname : String) (pr : String × List ChromaEntry)
    (hdoc : st.getDocument documentId = some doc)
    (howner : doc.uploadedById = userId)
    (hstatus : doc.status = "processed")
    (heid : doc.embeddingId = some eid)
    (hcname : COLLECTION_NAMES doc.category = some cname)
    (hcol : idx.find? (fun p => p.1 == cname) = some pr) :
    ∃ stOut idxOut fsOut,
      deleteDocumentHandler st idx fs documentId userId = (stOut, idxOut, fsOut, 200) ∧
      (∀ d ∈ stOut.documents, d.id ≠ documentId) ∧
      doc.filePath ∉ fsOut ∧
      (∀ p ∈ idxOut, p.1 = cname → ∀ e ∈ p.2, e.id ≠ eid) ∧
      (∀ sel : ChromaSelect, (∀ q entries e, e ∈ sel q entries → e ∈ entries) →
        ∀ q res, queryDocuments false sel idxOut q doc.category = .ok res →
          ∀ e ∈ res, e.id ≠ eid) := by
  have hid : Document.id doc = documentId := mapGet_key Document.id st.documents documentId doc hdoc
  have hdel : chromaDeleteDocument idx eid doc.category
      = .ok (idx.map (fun p =>
          if p.1 == cname then (p.1, p.2.filter (fun e => e.id != eid)) else p)) := by
    simp only [chromaDeleteDocument, hcname, hcol]
  have heval : deleteDocumentHandler st idx fs documentId userId
      = (st.deleteDocument doc.id,
         idx.map (fun p =>
           if p.1 == cname then (p.1, p.2.filter (fun e => e.id != eid)) else p),
         fs.filter (fun p => p != doc.filePath), 200) := by
    simp [deleteDocumentHandler, hdoc, howner, heid, hstatus, hdel]
  rw [heval]
  have hmain : ∀ p ∈ idx.map (fun p =>
      if p.1 == cname then (p.1, p.2.filter (fun e => e.id != eid)) else p),
      p.1 = cname → ∀ e ∈ p.2, e.id ≠ eid := by
    intro p hp hpname e he
    rcases List.mem_map.mp hp with ⟨p0, hp0, hfp⟩
    by_cases h0 : p0.1 = cname
    · rw [if_pos (by simpa using h0)] at hfp
      rw [← hfp] at he
      have := List.of_mem_filter he
      simpa using this
    · rw [if_neg (by simpa using h0)] at hfp
      rw [← hfp] at hpname
      exact absurd hpname h0
  refine ⟨_, _, _, rfl, ?_, ?_, hmain, ?_⟩
  · intro d hd
    have hmem := List.mem_filter.mp hd
    have : (d.id != doc.id) = true := hmem.2
    rw [hid] at this
    simpa using this
  · intro hmem
    have := (List.mem_filter.mp hmem).2
    simp at this
  · intro sel hsel q res hq e he
    cases hfind : (idx.map (fun p =>
        if p.1 == cname then (p.1, p.2.filter (fun e => e.id != eid)) else p)).find?
          (fun p => p.1 == cname) with
    | none =>
      have hgc : getCollection (idx.map (fun p =>
          if p.1 == cname then (p.1, p.2.filter (fun e => e.id != eid)) else p)) doc.category
          = Except.error ("Collection " ++ cname ++ " does not exist") := by
        simp only [getCollection, hcname, hfind]
      simp only [queryDocuments, hgc] at hq
      exact Except.noConfusion hq
    | some pr2 =>
      have hgc : getCollection (idx.map (fun p =>
          if p.1 == cname then (p.1, p.2.filter (fun e => e.id != eid)) else p)) doc.category
          = Except.ok pr2.2 := by
        simp only [getCollection, hcname, hfind]
      simp only [queryDocuments, hgc, Bool.false_eq_true, if_false] at hq
      have hres : sel q pr2.2 = res := by
        injection hq
      have hprmem := List.mem_of_find?_eq_some hfind
      have hprname : pr2.1 = cname := by
        have := List.find?_some hfind
        simpa using this
      rw [← hres] at he
      exact hmain pr2 hprmem hprname e (hsel q pr2.2 e he)

/-- Witness for C7 at concrete inputs: a processed `hr` document whose entry
sits in the `hr_onboarding_docs` collection alongside another entry, owned by
user 7, present on the filesystem. -/
theorem c7_witness :
    ((⟨[], [], [], [⟨1, "handbook", none, "pdf", 100, "hr", "policy",
        "uploads/1-handbook.pdf", 7, "processed", 0, some "doc_1"⟩], [], [],
        1, 1, 1, 2, 1, 1, 1⟩ : MemStorage).getDocument 1
      = some ⟨1, "handbook", none, "pdf", 100, "hr", "policy",
          "uploads/1-handbook.pdf", 7, "processed", 0, some "doc_1"⟩) ∧
    ∃ stOut idxOut fsOut,
      deleteDocumentHandler
          ⟨[], [], [], [⟨1, "handbook", none, "pdf", 100, "hr", "policy",
            "uploads/1-handbook.pdf", 7, "processed", 0, some "doc_1"⟩], [], [],
            1, 1, 1, 2, 1, 1, 1⟩
          [("hr_onboarding_docs",
            [⟨"doc_1", "leave policy text", some "handbook"⟩,
             ⟨"doc_2", "other", none⟩])]
          ["uploads/1-handbook.pdf"] 1 7
        = (stOut, idxOut, fsOut, 200) ∧
      (∀ d ∈ stOut.documents, d.id ≠ 1) ∧
      "uploads/1-handbook.pdf" ∉ fsOut ∧
      (∀ p ∈ idxOut, p.1 = "hr_onboarding_docs" → ∀ e ∈ p.2, e.id ≠ "doc_1") ∧
      (∀ sel : ChromaSelect, (∀ q entries e, e ∈ sel q entries → e ∈ entries) →
        ∀ q res, queryDocuments false sel idxOut q "hr" = .ok res →
          ∀ e ∈ res, e.id ≠ "doc_1") :=
  ⟨by decide,
   c7_delete_processed_document
     ⟨[], [], [], [⟨1, "handbook", none, "pdf", 100, "hr", "policy",
       "uploads/1-handbook.pdf", 7, "processed", 0, some "doc_1"⟩], [], [],
       1, 1, 1, 2, 1, 1, 1⟩
     [("hr_onboarding_docs",
       [⟨"doc_1", "leave policy text", some "handbook"⟩, ⟨"doc_2", "other", none⟩])]
     ["uploads/1-handbook.pdf"] 1 7
     ⟨1, "handbook", none, "pdf", 100, "hr", "policy",
       "uploads/1-handbook.pdf", 7, "processed", 0, some "doc_1"⟩
     "doc_1" "hr_onboarding_docs"
     ("hr_onboarding_docs",
       [⟨"doc_1", "leave policy text", some "handbook"⟩, ⟨"doc_2", "other", none⟩])
     (by decide) (by decide) (by decide) (by decide) (by decide) (by decide)⟩

/-- `updateCommentVoteCounts` leaves the vote table unchanged. -/
theorem votes_updateCommentVoteCounts (st : MemStorage) (i : Nat) :
    (st.updateCommentVoteCounts i).votes = st.votes := by
  unfold MemStorage.updateCommentVoteCounts
  cases mapGet Comment.id st.comments i <;> rfl

/-- `updateCommentVoteCounts` recounts the comment's tallies from the vote table. -/
theorem getComment_updateCommentVoteCounts_self (st : MemStorage) (i : Nat) (c : Comment)
    (hc : st.getComment i = some c) :
    (st.updateCommentVoteCounts i).getComment i = some
      { c with
        upvotes := ((st.votes.filter (fun v => v.commentId == some i)).filter
          (fun v => v.voteType == "upvote")).length,
        downvotes := ((st.votes.filter (fun v => v.commentId == some i)).filter
          (fun v => v.voteType == "downvote")).length } := by
  have hid : Comment.id c = i := mapGet_key Comment.id st.comments i c hc
  unfold MemStorage.updateCommentVoteCounts
  rw [show mapGet Comment.id st.comments i = some c from hc]
  exact mapGet_mapSet_self Comment.id st.comments i _ hid

/-- `deleteVote` does not touch the comments table. -/
theorem getComment_deleteVote (st : MemStorage) (i j : Nat) :
    (st.deleteVote i).getComment j = st.getComment j := rfl

/-- `updateVote` does not touch the comments table. -/
theorem getComment_updateVote (st : MemStorage) (i : Nat) (t : String) (j : Nat) :
    (st.updateVote i t).getComment j = st.getComment j := by
  unfold MemStorage.updateVote
  cases mapGet Vote.id st.votes i <;> rfl

/-- After any comment-vote operation the stored tallies are recounted from the
vote table (all three branches of the route end in `updateCommentVoteCounts`). -/
theorem commentVoteHandler_counts (st : MemStorage) (commentId userId : Nat)
    (voteType : String) (c : Comment)
    (hcond : (voteType == "upvote" || voteType == "downvote") = true)
    (hc : st.getComment commentId = some c) :
    ∃ stOut code c2, commentVoteHandler st commentId userId voteType = (stOut, code) ∧
      stOut.getComment commentId = some c2 ∧
      c2.upvotes = (stOut.votes.filter
        (fun v => v.voteType == "upvote" && v.commentId == some commentId)).length ∧
      c2.downvotes = (stOut.votes.filter
        (fun v => v.voteType == "downvote" && v.commentId == some commentId)).length := by
  simp only [commentVoteHandler, hcond, if_true, hc]
  cases hev : st.getVoteByUserAndComment userId commentId with
  | some existingVote =>
    dsimp only
    cases hsame : existingVote.voteType == voteType with
    | true =>
      rw [if_pos rfl]
      refine ⟨_, _, _, rfl,
        getComment_updateCommentVoteCounts_self _ _ c ((getComment_deleteVote st
          existingVote.id commentId).trans hc), ?_, ?_⟩ <;>
        simp [votes_updateCommentVoteCounts, List.filter_filter]
    | false =>
      rw [if_neg Bool.false_ne_true]
      refine ⟨_, _, _, rfl,
        getComment_updateCommentVoteCounts_self _ _ c ((getComment_updateVote st
          existingVote.id voteType commentId).trans hc), ?_, ?_⟩ <;>
        simp [votes_updateCommentVoteCounts, List.filter_filter]
  | none =>
    dsimp only
    refine ⟨_, _, _, rfl,
      getComment_updateCommentVoteCounts_self _ _ c hc, ?_, ?_⟩ <;>
      simp [votes_updateCommentVoteCounts, List.filter_filter]

/-- Claim C10: after any comment-vote operation, the comment's stored
`upvotes` and `downvotes` equal the number of vote records of that type
referencing the comment; and a user submitting the same vote type twice on a
comment ends with no vote record for that user and comment. -/
theorem c10_vote_tallies_and_double_vote
    (st : MemStorage) (commentId userId : Nat) (voteType : String) (c : Comment)
    (hvt : voteType = "upvote" ∨ voteType = "downvote")
    (hc : st.getComment commentId = some c)
    (hwf : ∀ v ∈ st.votes, v.id < st.voteIdCounter) :
    (∃ stOut code c2, commentVoteHandler st commentId userId voteType = (stOut, code) ∧
      stOut.getComment commentId = some c2 ∧
      c2.upvotes = (stOut.votes.filter
        (fun v => v.voteType == "upvote" && v.commentId == some commentId)).length ∧
      c2.downvotes = (stOut.votes.filter
        (fun v => v.voteType == "downvote" && v.commentId == some commentId)).length) ∧
    (st.getVoteByUserAndComment userId commentId = none →
      ∀ v ∈ ((commentVoteHandler (commentVoteHandler st commentId userId voteType).1
          commentId userId voteType).1).votes,
        ¬(v.userId = userId ∧ v.commentId = some commentId)) := by
  have hcond : (voteType == "upvote" || voteType == "downvote") = true := by
    rcases hvt with rfl | rfl
    · rfl
    · rfl
  constructor
  · exact commentVoteHandler_counts st commentId userId voteType c hcond hc
  · intro hnone
    have heval1 : commentVoteHandler st commentId userId voteType
        = (((st.createVote ⟨none, some commentId, userId,
              voteType⟩).2).updateCommentVoteCounts commentId, 201) := by
      simp only [commentVoteHandler, hcond, if_true, hc, hnone]
    have hvotes1 : (((st.createVote ⟨none, some commentId, userId,
        voteType⟩).2).updateCommentVoteCounts commentId).votes
        = st.votes ++ [⟨st.voteIdCounter, none, some commentId, userId, voteType, st.clock⟩] := by
      rw [votes_updateCommentVoteCounts]
      exact mapSet_eq_append Vote.id st.votes st.voteIdCounter _
        (fun x hx => Nat.ne_of_lt (hwf x hx))
    have hc1 : (((st.createVote ⟨none, some commentId, userId,
        voteType⟩).2).updateCommentVoteCounts commentId).getComment commentId
        = some { c with
            upvotes := (((st.createVote ⟨none, some commentId, userId,
              voteType⟩).2.votes.filter (fun v => v.commentId == some commentId)).filter
                (fun v => v.voteType == "upvote")).length,
            downvotes := (((st.createVote ⟨none, some commentId, userId,
              voteType⟩).2.votes.filter (fun v => v.commentId == some commentId)).filter
                (fun v => v.voteType == "downvote")).length } :=
      getComment_updateCommentVoteCounts_self _ _ c hc
    have hfind2 : (((st.createVote ⟨none, some commentId, userId,
        voteType⟩).2).updateCommentVoteCounts commentId).getVoteByUserAndComment
          userId commentId
        = some ⟨st.voteIdCounter, none, some commentId, userId, voteType, st.clock⟩ := by
      unfold MemStorage.getVoteByUserAndComment
      rw [hvotes1, List.find?_append]
      have h0 : st.votes.find?
          (fun v => v.userId == userId && v.commentId == some commentId) = none := hnone
      rw [h0]
      simp
    rw [heval1]
    have heval2 : commentVoteHandler (((st.createVote ⟨none, some commentId, userId,
        voteType⟩).2).updateCommentVoteCounts commentId) commentId userId voteType
        = (((((st.createVote ⟨none, some commentId, userId,
              voteType⟩).2).updateCommentVoteCounts commentId).deleteVote
                st.voteIdCounter).updateCommentVoteCounts commentId, 200) := by
      simp only [commentVoteHandler, hcond, if_true, hc1, hfind2, beq_self_eq_true]
    rw [heval2]
    intro v hv
    rw [votes_updateCommentVoteCounts] at hv
    have hv2 : v ∈ (st.votes ++ [(⟨st.voteIdCounter, none, some commentId, userId,
        voteType, st.clock⟩ : Vote)]).filter (fun x => x.id != st.voteIdCounter) := by
      have hdv : ((((st.createVote ⟨none, some commentId, userId,
          voteType⟩).2).updateCommentVoteCounts commentId).deleteVote
            st.voteIdCounter).votes
          = (st.votes ++ [(⟨st.voteIdCounter, none, some commentId, userId,
              voteType, st.clock⟩ : Vote)]).filter (fun x => x.id != st.voteIdCounter) := by
        unfold MemStorage.deleteVote mapDelete
        dsimp only
        rw [hvotes1]
      rw [← hdv]
      exact hv
    rw [List.filter_append] at hv2
    have hlast : ([(⟨st.voteIdCounter, none, some commentId, userId, voteType,
        st.clock⟩ : Vote)]).filter (fun x => x.id != st.voteIdCounter) = [] := by
      simp
    rw [hlast, List.append_nil] at hv2
    have hvmem : v ∈ st.votes := List.mem_of_mem_filter hv2
    have hnp := List.find?_eq_none.mp hnone v hvmem
    intro hcontra
    apply hnp
    simp [hcontra.1, hcontra.2]

/-- Witness for C10 at concrete inputs: an upvote toggled twice by user 7 on
comment 1 of an otherwise empty store holding one comment. -/
theorem c10_witness :
    (("upvote" : String) = "upvote" ∨ ("upvote" : String) = "downvote") ∧
    ((∃ stOut code c2, commentVoteHandler
        ⟨[], [⟨1, "answer", 1, 1, false, 0, 0, 0⟩], [], [], [], [], 1, 2, 1, 1, 1, 1, 1⟩
        1 7 "upvote" = (stOut, code) ∧
      stOut.getComment 1 = some c2 ∧
      c2.upvotes = (stOut.votes.filter
        (fun v => v.voteType == "upvote" && v.commentId == some 1)).length ∧
      c2.downvotes = (stOut.votes.filter
        (fun v => v.voteType == "downvote" && v.commentId == some 1)).length) ∧
    ((⟨[], [⟨1, "answer", 1, 1, false, 0, 0, 0⟩], [], [], [], [], 1, 2, 1, 1, 1, 1,
        1⟩ : MemStorage).getVoteByUserAndComment 7 1 = none →
      ∀ v ∈ ((commentVoteHandler (commentVoteHandler
          ⟨[], [⟨1, "answer", 1, 1, false, 0, 0, 0⟩], [], [], [], [], 1, 2, 1, 1, 1, 1, 1⟩
          1 7 "upvote").1 1 7 "upvote").1).votes,
        ¬(v.userId = 7 ∧ v.commentId = some 1))) :=
  ⟨Or.inl rfl,
   c10_vote_tallies_and_double_vote
     ⟨[], [⟨1, "answer", 1, 1, false, 0, 0, 0⟩], [], [], [], [], 1, 2, 1, 1, 1, 1, 1⟩
     1 7 "upvote" ⟨1, "answer", 1, 1, false, 0, 0, 0⟩
     (Or.inl rfl) (by decide) (by decide)⟩

/-- Counterexample to C3 as stated: on a fresh chat session, the first
generation call after sending M1 = "hello" passes the model the message
sequence [M1, M1], not [M1] — the user turn is persisted before the history
is re-read and `generateForumAIResponse` appends the newest user message once
more, so the model-visible sequence duplicates the newest turn. -/
theorem c3_counterexample :
    ∃ call : GenCall,
      (handleChatMessage false noSel [] (okGen (fun _ _ => "reply-1"))
          ⟨[], [], [], [], [⟨1, 7, "technical", 0⟩], [], 1, 1, 1, 1, 2, 1, 1⟩
          [] 1 "hello").2.1 = [call] ∧
      forumAIMessages call.userMessage call.chatHistory
        = [⟨"user", "hello"⟩, ⟨"user", "hello"⟩] ∧
      ¬ forumAIMessages call.userMessage call.chatHistory = [⟨"user", "hello"⟩] := by
  refine ⟨⟨"hello", [("user", "hello")], "technical", ""⟩, ?_, ?_, ?_⟩ <;> decide

/-- Evaluation of one successful `chat_message` round: given the session
exists, stored message ids are below the counter, the session's stored
messages filter to `hist`, and the appended fresh user message keeps the list
sorted by creation time, the handler persists the user message, makes exactly
one generation call whose history is the re-read persisted list, and persists
the reply. -/
theorem handleChatMessage_eval (fault : Bool) (sel : ChromaSelect) (idx : ChromaIndex)
    (f : List RoleMsg → String → String) (st : MemStorage) (calls : List GenCall)
    (chatId : Nat) (chat : AiChat) (m : String) (hist : List AiChatMessage)
    (hchat : st.getAiChat chatId = some chat)
    (hwf : ∀ x ∈ st.aiChatMessages, x.id < st.aiChatMessageIdCounter)
    (hfilter : st.aiChatMessages.filter (fun x => x.chatId == chatId) = hist)
    (hsorted : List.Sorted msgTimeLE
      (hist ++ [(st.createAiChatMessage ⟨chatId, m, true⟩).1])) :
    handleChatMessage fault sel idx (okGen f) st calls chatId m
      = (((st.createAiChatMessage ⟨chatId, m, true⟩).2.createAiChatMessage
            ⟨chatId, f (forumAIMessages m
                ((hist ++ [(st.createAiChatMessage ⟨chatId, m, true⟩).1]).map roleOf))
              (forumAISystem chat.category (getContextForQuery fault sel idx m chat.category)),
            false⟩).2,
         calls ++ [⟨m, (hist ++ [(st.createAiChatMessage ⟨chatId, m, true⟩).1]).map roleOf,
           chat.category, getContextForQuery fault sel idx m chat.category⟩],
         OutEvent.aiResponse chatId
           ((st.createAiChatMessage ⟨chatId, m, true⟩).2.createAiChatMessage
            ⟨chatId, f (forumAIMessages m
                ((hist ++ [(st.createAiChatMessage ⟨chatId, m, true⟩).1]).map roleOf))
              (forumAISystem chat.category (getContextForQuery fault sel idx m chat.category)),
            false⟩).1) := by
  have hgchat : (st.createAiChatMessage ⟨chatId, m, true⟩).2.getAiChat chatId = some chat :=
    hchat
  have hgmsgs : (st.createAiChatMessage ⟨chatId, m, true⟩).2.getAiChatMessages chatId
      = hist ++ [(st.createAiChatMessage ⟨chatId, m, true⟩).1] := by
    unfold MemStorage.getAiChatMessages
    have happ : (st.createAiChatMessage ⟨chatId, m, true⟩).2.aiChatMessages
        = st.aiChatMessages ++ [(st.createAiChatMessage ⟨chatId, m, true⟩).1] :=
      mapSet_eq_append AiChatMessage.id st.aiChatMessages st.aiChatMessageIdCounter _
        (fun x hx => Nat.ne_of_lt (hwf x hx))
    rw [happ, List.filter_append, hfilter]
    have hone : ([(st.createAiChatMessage ⟨chatId, m, true⟩).1].filter
        (fun x => x.chatId == chatId)) = [(st.createAiChatMessage ⟨chatId, m, true⟩).1] := by
      simp [MemStorage.createAiChatMessage]
    rw [hone]
    exact List.Sorted.insertionSort_eq hsorted
  simp only [handleChatMessage, hgchat, hgmsgs, generateForumAIResponse, okGen]

/-- `createAiChatMessage` keeps all stored message ids below the counter. -/
theorem wf_createAiChatMessage (st : MemStorage) (x : InsertAiChatMessage)
    (hwf : ∀ y ∈ st.aiChatMessages, y.id < st.aiChatMessageIdCounter) :
    ∀ y ∈ (st.createAiChatMessage x).2.aiChatMessages,
      y.id < (st.createAiChatMessage x).2.aiChatMessageIdCounter := by
  intro y hy
  have happ : (st.createAiChatMessage x).2.aiChatMessages
      = st.aiChatMessages ++ [(st.createAiChatMessage x).1] :=
    mapSet_eq_append AiChatMessage.id st.aiChatMessages st.aiChatMessageIdCounter _
      (fun z hz => Nat.ne_of_lt (hwf z hz))
  rw [happ] at hy
  rcases List.mem_append.mp hy with h | h
  · exact Nat.lt_succ_of_lt (hwf y h)
  · rw [List.mem_singleton.mp h]
    exact Nat.lt_succ_self _

/-- Claim C3, amended: on a chat session with no prior messages, sending M1
and then (after M1's round completes) M2 produces exactly two generation
calls; their `chatHistory` arguments — re-read each time from the persisted
messages in creation order — are [M1] and [M1, reply1, M2], and the message
sequence the model actually sees appends the newest user turn once more,
giving [M1, M1] and then [M1, reply1, M2, M2]. -/
theorem c3_amended_histories (fault : Bool) (sel : ChromaSelect) (idx : ChromaIndex)
    (f : List RoleMsg → String → String) (st0 : MemStorage) (chatId : Nat) (chat : AiChat)
    (m1 m2 : String)
    (hchat : st0.getAiChat chatId = some chat)
    (hmsgs : st0.getAiChatMessages chatId = [])
    (hwf : ∀ x ∈ st0.aiChatMessages, x.id < st0.aiChatMessageIdCounter) :
    (handleChatMessage fault sel idx (okGen f) st0 [] chatId m1).2.1
      = [⟨m1, [("user", m1)], chat.category,
          getContextForQuery fault sel idx m1 chat.category⟩] ∧
    (handleChatMessage fault sel idx (okGen f)
        (handleChatMessage fault sel idx (okGen f) st0 [] chatId m1).1
        (handleChatMessage fault sel idx (okGen f) st0 [] chatId m1).2.1 chatId m2).2.1
      = [⟨m1, [("user", m1)], chat.category,
          getContextForQuery fault sel idx m1 chat.category⟩,
         ⟨m2, [("user", m1),
            ("assistant", f (forumAIMessages m1 [("user", m1)])
              (forumAISystem chat.category (getContextForQuery fault sel idx m1 chat.category))),
            ("user", m2)], chat.category,
          getContextForQuery fault sel idx m2 chat.category⟩] ∧
    forumAIMessages m2 [("user", m1),
        ("assistant", f (forumAIMessages m1 [("user", m1)])
          (forumAISystem chat.category (getContextForQuery fault sel idx m1 chat.category))),
        ("user", m2)]
      = [⟨"user", m1⟩,
         ⟨"assistant", f (forumAIMessages m1 [("user", m1)])
           (forumAISystem chat.category (getContextForQuery fault sel idx m1 chat.category))⟩,
         ⟨"user", m2⟩, ⟨"user", m2⟩] := by
  have hfilter0 : st0.aiChatMessages.filter (fun x => x.chatId == chatId) = [] :=
    insertionSort_eq_nil msgTimeLE _ hmsgs
  have hsorted1 : List.Sorted msgTimeLE
      (([] : List AiChatMessage) ++ [(st0.createAiChatMessage ⟨chatId, m1, true⟩).1]) := by
    simp
  have heval1 := handleChatMessage_eval fault sel idx f st0 [] chatId chat m1 []
    hchat hwf hfilter0 hsorted1
  have hhist1 : (([] : List AiChatMessage)
      ++ [(st0.createAiChatMessage ⟨chatId, m1, true⟩).1]).map roleOf = [("user", m1)] := by
    simp [MemStorage.createAiChatMessage, roleOf]
  rw [hhist1] at heval1
  refine ⟨by simp [heval1], ?_, by simp [forumAIMessages]⟩
  rw [heval1]
  simp only [List.nil_append]
  have hchat2 : ((st0.createAiChatMessage ⟨chatId, m1, true⟩).2.createAiChatMessage
      ⟨chatId, f (forumAIMessages m1 [("user", m1)])
        (forumAISystem chat.category (getContextForQuery fault sel idx m1 chat.category)),
      false⟩).2.getAiChat chatId = some chat := hchat
  have hwf1 := wf_createAiChatMessage st0 ⟨chatId, m1, true⟩ hwf
  have hwf2 := wf_createAiChatMessage _
    ⟨chatId, f (forumAIMessages m1 [("user", m1)])
      (forumAISystem chat.category (getContextForQuery fault sel idx m1 chat.category)),
    false⟩ hwf1
  have happ1 : (st0.createAiChatMessage ⟨chatId, m1, true⟩).2.aiChatMessages
      = st0.aiChatMessages ++ [(st0.createAiChatMessage ⟨chatId, m1, true⟩).1] :=
    mapSet_eq_append AiChatMessage.id st0.aiChatMessages st0.aiChatMessageIdCounter _
      (fun z hz => Nat.ne_of_lt (hwf z hz))
  have happ2 : ((st0.createAiChatMessage ⟨chatId, m1, true⟩).2.createAiChatMessage
      ⟨chatId, f (forumAIMessages m1 [("user", m1)])
        (forumAISystem chat.category (getContextForQuery fault sel idx m1 chat.category)),
      false⟩).2.aiChatMessages
      = (st0.createAiChatMessage ⟨chatId, m1, true⟩).2.aiChatMessages
        ++ [((st0.createAiChatMessage ⟨chatId, m1, true⟩).2.createAiChatMessage
          ⟨chatId, f (forumAIMessages m1 [("user", m1)])
            (forumAISystem chat.category (getContextForQuery fault sel idx m1 chat.category)),
          false⟩).1] :=
    mapSet_eq_append AiChatMessage.id _ _ _ (fun z hz => Nat.ne_of_lt (hwf1 z hz))
  have hfilter2 : ((st0.createAiChatMessage ⟨chatId, m1, true⟩).2.createAiChatMessage
      ⟨chatId, f (forumAIMessages m1 [("user", m1)])
        (forumAISystem chat.category (getContextForQuery fault sel idx m1 chat.category)),
      false⟩).2.aiChatMessages.filter (fun x => x.chatId == chatId)
      = [(st0.createAiChatMessage ⟨chatId, m1, true⟩).1,
         ((st0.createAiChatMessage ⟨chatId, m1, true⟩).2.createAiChatMessage
          ⟨chatId, f (forumAIMessages m1 [("user", m1)])
            (forumAISystem chat.category (getContextForQuery fault sel idx m1 chat.category)),
          false⟩).1] := by
    rw [happ2, happ1, List.filter_append, List.filter_append, hfilter0]
    simp [MemStorage.createAiChatMessage]
  have hsorted2 : List.Sorted msgTimeLE
      ([(st0.createAiChatMessage ⟨chatId, m1, true⟩).1,
        ((st0.createAiChatMessage ⟨chatId, m1, true⟩).2.createAiChatMessage
          ⟨chatId, f (forumAIMessages m1 [("user", m1)])
            (forumAISystem chat.category (getContextForQuery fault sel idx m1 chat.category)),
          false⟩).1]
        ++ [(((st0.createAiChatMessage ⟨chatId, m1, true⟩).2.createAiChatMessage
          ⟨chatId, f (forumAIMessages m1 [("user", m1)])
            (forumAISystem chat.category (getContextForQuery fault sel idx m1 chat.category)),
          false⟩).2.createAiChatMessage ⟨chatId, m2, true⟩).1]) := by
    simp [MemStorage.createAiChatMessage, List.sorted_cons, msgTimeLE]
    omega
  have heval2 := handleChatMessage_eval fault sel idx f _
    [⟨m1, [("user", m1)], chat.category, getContextForQuery fault sel idx m1 chat.category⟩]
    chatId chat m2 _ hchat2 hwf2 hfilter2 hsorted2
  rw [heval2]
  simp [MemStorage.createAiChatMessage, roleOf]

/-- Witness for the amended C3 at concrete inputs: a fresh `technical` session,
messages "hi" then "again", generator constantly replying "r-1". -/
theorem c3_amended_witness :
    ((⟨[], [], [], [], [⟨1, 7, "technical", 0⟩], [], 1, 1, 1, 1, 2, 1, 1⟩ :
        MemStorage).getAiChat 1 = some ⟨1, 7, "technical", 0⟩ ∧
     (⟨[], [], [], [], [⟨1, 7, "technical", 0⟩], [], 1, 1, 1, 1, 2, 1, 1⟩ :
        MemStorage).getAiChatMessages 1 = []) ∧
    ((handleChatMessage false noSel [] (okGen (fun _ _ => "r-1"))
        ⟨[], [], [], [], [⟨1, 7, "technical", 0⟩], [], 1, 1, 1, 1, 2, 1, 1⟩ [] 1 "hi").2.1
      = [⟨"hi", [("user", "hi")], "technical", ""⟩] ∧
    (handleChatMessage false noSel [] (okGen (fun _ _ => "r-1"))
        (handleChatMessage false noSel [] (okGen (fun _ _ => "r-1"))
          ⟨[], [], [], [], [⟨1, 7, "technical", 0⟩], [], 1, 1, 1, 1, 2, 1, 1⟩ [] 1 "hi").1
        (handleChatMessage false noSel [] (okGen (fun _ _ => "r-1"))
          ⟨[], [], [], [], [⟨1, 7, "technical", 0⟩], [], 1, 1, 1, 1, 2, 1, 1⟩ [] 1 "hi").2.1
        1 "again").2.1
      = [⟨"hi", [("user", "hi")], "technical", ""⟩,
         ⟨"again", [("user", "hi"), ("assistant", "r-1"), ("user", "again")], "technical", ""⟩] ∧
    forumAIMessages "again" [("user", "hi"), ("assistant", "r-1"), ("user", "again")]
      = [⟨"user", "hi"⟩, ⟨"assistant", "r-1"⟩, ⟨"user", "again"⟩, ⟨"user", "again"⟩]) :=
  ⟨⟨by decide, by decide⟩,
   c3_amended_histories false noSel [] (fun _ _ => "r-1")
     ⟨[], [], [], [], [⟨1, 7, "technical", 0⟩], [], 1, 1, 1, 1, 2, 1, 1⟩ 1
     ⟨1, 7, "technical", 0⟩ "hi" "again" (by decide) (by decide) (by decide)⟩

/-- Counterexample to C2 as stated: on one session, with M2 = "m2" arriving
before M1 = "m1" finished, the schedule that suspends handler 1 after its
history read (generation in flight) lets handler 2 persist "m2", read
history, and start generation: the generation call for "m2" has occurred
while no assistant reply (in particular M1's) is persisted, and its history
contains no assistant turn — the handlers are not serialized per session. -/
theorem c2_counterexample :
    ((runSched (fun c => "re:" ++ c.userMessage)
        (⟨⟨[], [], [], [], [⟨1, 7, "technical", 0⟩], [], 1, 1, 1, 1, 2, 1, 1⟩, []⟩,
         newHandler 1 "m1", newHandler 1 "m2")
        [true, true, false, false, false]).1.calls.map GenCall.userMessage = ["m2"]) ∧
    (∀ c ∈ (runSched (fun c => "re:" ++ c.userMessage)
        (⟨⟨[], [], [], [], [⟨1, 7, "technical", 0⟩], [], 1, 1, 1, 1, 2, 1, 1⟩, []⟩,
         newHandler 1 "m1", newHandler 1 "m2")
        [true, true, false, false, false]).1.calls,
      ∀ rc ∈ c.chatHistory, rc.1 = "user") ∧
    (∀ x ∈ (runSched (fun c => "re:" ++ c.userMessage)
        (⟨⟨[], [], [], [], [⟨1, 7, "technical", 0⟩], [], 1, 1, 1, 1, 2, 1, 1⟩, []⟩,
         newHandler 1 "m1", newHandler 1 "m2")
        [true, true, false, false, false]).1.store.aiChatMessages,
      x.isUserMessage = true) := by
  refine ⟨?_, ?_, ?_⟩ <;> decide

/-- Claim C2, amended: inbound messages on one session are handled by
independent asynchronous handlers with no per-session serialization. The user
message itself is persisted synchronously at event dispatch, so under every
schedule of the two handlers (arrival order means handler 1 takes the first
step) M1 is the first persisted message and any generation call for M2 has
M1's user turn in its history; each submitted message triggers at most one
Response Generator invocation — but M2's generation may start before M1's
reply is persisted, and then its history lacks that reply. -/
theorem c2_amended_no_serialization (sched : Fin 8 → Bool) (h0 : sched 0 = true) :
    (∀ c ∈ (runSched (fun c => "re:" ++ c.userMessage)
        (⟨⟨[], [], [], [], [⟨1, 7, "technical", 0⟩], [], 1, 1, 1, 1, 2, 1, 1⟩, []⟩,
         newHandler 1 "m1", newHandler 1 "m2")
        ((List.finRange 8).map sched)).1.calls,
      c.userMessage = "m2" → ("user", "m1") ∈ c.chatHistory) ∧
    ((runSched (fun c => "re:" ++ c.userMessage)
        (⟨⟨[], [], [], [], [⟨1, 7, "technical", 0⟩], [], 1, 1, 1, 1, 2, 1, 1⟩, []⟩,
         newHandler 1 "m1", newHandler 1 "m2")
        ((List.finRange 8).map sched)).1.calls.filter
          (fun c => c.userMessage == "m1")).length ≤ 1 ∧
    ((runSched (fun c => "re:" ++ c.userMessage)
        (⟨⟨[], [], [], [], [⟨1, 7, "technical", 0⟩], [], 1, 1, 1, 1, 2, 1, 1⟩, []⟩,
         newHandler 1 "m1", newHandler 1 "m2")
        ((List.finRange 8).map sched)).1.calls.filter
          (fun c => c.userMessage == "m2")).length ≤ 1 ∧
    (((runSched (fun c => "re:" ++ c.userMessage)
        (⟨⟨[], [], [], [], [⟨1, 7, "technical", 0⟩], [], 1, 1, 1, 1, 2, 1, 1⟩, []⟩,
         newHandler 1 "m1", newHandler 1 "m2")
        ((List.finRange 8).map sched)).1.store.aiChatMessages.map
          (fun x => x.content)).head? = some "m1") := by
  revert h0
  revert sched
  set_option maxRecDepth 4000 in decide

/-- Witness for the amended C2 at the sequential schedule (handler 1 runs to
completion before handler 2 takes any step). -/
theorem c2_amended_witness :
    ((fun _ : Fin 8 => true) 0 = true) ∧
    ((∀ c ∈ (runSched (fun c => "re:" ++ c.userMessage)
        (⟨⟨[], [], [], [], [⟨1, 7, "technical", 0⟩], [], 1, 1, 1, 1, 2, 1, 1⟩, []⟩,
         newHandler 1 "m1", newHandler 1 "m2")
        ((List.finRange 8).map (fun _ => true))).1.calls,
      c.userMessage = "m2" → ("user", "m1") ∈ c.chatHistory) ∧
    ((runSched (fun c => "re:" ++ c.userMessage)
        (⟨⟨[], [], [], [], [⟨1, 7, "technical", 0⟩], [], 1, 1, 1, 1, 2, 1, 1⟩, []⟩,
         newHandler 1 "m1", newHandler 1 "m2")
        ((List.finRange 8).map (fun _ => true))).1.calls.filter
          (fun c => c.userMessage == "m1")).length ≤ 1 ∧
    ((runSched (fun c => "re:" ++ c.userMessage)
        (⟨⟨[], [], [], [], [⟨1, 7, "technical", 0⟩], [], 1, 1, 1, 1, 2, 1, 1⟩, []⟩,
         newHandler 1 "m1", newHandler 1 "m2")
        ((List.finRange 8).map (fun _ => true))).1.calls.filter
          (fun c => c.userMessage == "m2")).length ≤ 1 ∧
    (((runSched (fun c => "re:" ++ c.userMessage)
        (⟨⟨[], [], [], [], [⟨1, 7, "technical", 0⟩], [], 1, 1, 1, 1, 2, 1, 1⟩, []⟩,
         newHandler 1 "m1", newHandler 1 "m2")
        ((List.finRange 8).map (fun _ => true))).1.store.aiChatMessages.map
          (fun x => x.content)).head? = some "m1")) :=
  ⟨rfl, c2_amended_no_serialization (fun _ => true) rfl⟩

end AIForum
